import Mathlib

/-!
Verification of the driveMybox API client (files `src/api/dMB.py` and
`app/api/dMB_client.py`).

The client is a payload validator plus a thin request dispatcher.  We give a
shallow embedding: Python dictionaries become a JSON-like value type `JValue`,
validators that `raise ValueError(msg)` / `return True` become functions into
`Except String Bool`, and the dispatcher becomes a function from a modelled
transport outcome to `Except APIExceptionData JValue`.  String literals from
the Python sources are transcribed verbatim, except that single-quote
characters inside messages are omitted (they carry no logical weight).
-/

/-- JSON-like values: the payloads handled by the client are dictionaries of
strings, integers, booleans, lists and nested dictionaries.  An `obj` is an
association list in insertion order (Python dict keys are unique; lookup takes
the first binding). -/
inductive JValue where
  | null
  | bool (b : Bool)
  | int (n : Int)
  | str (s : String)
  | arr (xs : List JValue)
  | obj (fs : List (String × JValue))

/-- First binding for a key in an association list (Python dict lookup). -/
def jLookup : List (String × JValue) → String → Option JValue
  | [], _ => none
  | (k, v) :: rest, key => if k = key then some v else jLookup rest key

/-- Python `key in d` for a dictionary `d`; `false` on non-dictionaries
(callers below only use it where the Python code assumes a dict). -/
def jHasKey : JValue → String → Bool
  | .obj fs, k => (jLookup fs k).isSome
  | _, _ => false

/-- Python `d[key]`, defaulting to `null` when absent (callers only use it
after a `jHasKey` test, mirroring the Python access pattern). -/
def jGet : JValue → String → JValue
  | .obj fs, k => (jLookup fs k).getD .null
  | _, _ => .null

/-- Python truthiness of a value (`if x:`). -/
def truthy : JValue → Bool
  | .null => false
  | .bool b => b
  | .int n => n != 0
  | .str s => s ≠ ""
  | .arr xs => ¬ xs.isEmpty
  | .obj fs => ¬ fs.isEmpty

/-- `needle` occurs as a contiguous prefix of `hay`. -/
def isPrefixCh : List Char → List Char → Bool
  | [], _ => true
  | _ :: _, [] => false
  | a :: as, b :: bs => a = b && isPrefixCh as bs

/-- `needle` occurs as a contiguous substring of `hay` (Python `sub in s`). -/
def containsSub : List Char → List Char → Bool
  | needle, [] => needle.isEmpty
  | needle, c :: rest => isPrefixCh needle (c :: rest) || containsSub needle rest

/-- Python `==` between a list element and a string key: only a string with
the same characters compares equal (numbers, booleans, `None` and containers
never equal a string). -/
def elemEqStr (key : String) : List JValue → Bool
  | [] => false
  | .str s :: rest => s = key || elemEqStr key rest
  | _ :: rest => elemEqStr key rest

/-- Python `key in container` for an arbitrary value: key lookup on a
dictionary, substring test on a string, element equality on a list, and a
`TypeError` (modelled as an error) on numbers, booleans and `None`. -/
def pyContains (container : JValue) (key : String) : Except String Bool :=
  match container with
  | .obj fs => .ok (jLookup fs key).isSome
  | .str s => .ok (containsSub key.data s.data)
  | .arr xs => .ok (elemEqStr key xs)
  | _ => .error "TypeError: argument is not iterable"

/-- Python `v < 0` on a dictionary value: defined for numbers (booleans are
ints in Python), a `TypeError` otherwise. -/
def jltZero : JValue → Except String Bool
  | .int n => .ok (decide (n < 0))
  | .bool _ => .ok false
  | _ => .error "TypeError: value is not comparable with int"

/-- Python `isinstance(v, int)` (booleans are ints in Python). -/
def pyIsInt : JValue → Bool
  | .int _ => true
  | .bool _ => true
  | _ => false

/-- Numeric value of an int-like JValue (Python `True == 1`, `False == 0`). -/
def pyIntVal : JValue → Int
  | .int n => n
  | .bool b => if b then 1 else 0
  | _ => 0

/-- Python `str(v)` as interpolated into f-string error messages.  Only the
scalar cases are rendered exactly; nested containers are abbreviated (no
theorem below depends on the rendering of containers). -/
def jStr : JValue → String
  | .str s => s
  | .int n => toString n
  | .bool b => if b then "True" else "False"
  | .null => "None"
  | .arr _ => "[...]"
  | .obj _ => "\x7b...\x7d"

/-- Elements iterated by a Python `for` loop over a dictionary value.  The
validators only ever reach a passing state when the value is a list; iteration
over a string or dict would fail on the first element inside the loop body (a
`ValueError` or `TypeError` in Python), which we fold into a single modelled
error here, and iteration over numbers raises `TypeError` directly. -/
def jElemsE : JValue → Except String (List JValue)
  | .arr xs => .ok xs
  | _ => .error "TypeError: value cannot be iterated as a list of mappings"

/-! ## Scalar validators (`src/api/dMB.py` lines 175-283) -/

/-- `_validate_job_order_ref` (dMB.py 175-187). -/
def validate_job_order_ref (job_order_ref : String) : Except String Bool :=
  if job_order_ref = "" ∨ job_order_ref.length > 128 then
    .error "Job order reference must be between 1 and 128 characters"
  else .ok true

/-- `_validate_container_number` (dMB.py 189-203). -/
def validate_container_number (container_number : String) : Except String Bool :=
  if container_number = "" ∨ container_number.length ≠ 11 then
    .error "Container number must be exactly 11 characters"
  else .ok true

/-- `_validate_iso_code` (dMB.py 205-217): the loose variant, length only. -/
def validate_iso_code (iso_code : String) : Except String Bool :=
  if iso_code = "" ∨ iso_code.length > 4 then
    .error "ISO code must be at most 4 characters"
  else .ok true

/-- The fixed allow-list from `_validate_iso_code` (dMB_client.py 142). -/
def permittedIsoCodes : List String :=
  ["22B0", "22G1", "22R1", "22TD", "22TG", "22TN", "22U1", "22U6", "22V0",
   "25G1", "25R1", "25U1", "25U6", "2CG1", "42B0", "42G1", "42R1", "42TD",
   "42TG", "42TN", "42U1", "42U6", "42V0", "45G1", "45R1", "45U1", "45U6",
   "4CG1", "4EG1", "L5G1", "L5R1", "LEG1"]

/-- `_validate_iso_code` (dMB_client.py 130-144): the strict variant with the
allow-list.  The second message is transcribed as in the source, where the
braces are literal text (the Python string is not an f-string). -/
def validate_iso_code_client (iso_code : String) : Except String Bool :=
  if iso_code = "" ∨ iso_code.length > 4 then
    .error "ISO code must be at most 4 characters"
  else if ¬ (iso_code ∈ permittedIsoCodes) then
    .error "ISO type code \x7biso_code\x7d not supported by ISO 6346 and therefore not supported by the API."
  else .ok true

/-- `_validate_weight` (dMB.py 219-231). -/
def validate_weight (weight : Int) : Except String Bool :=
  if weight < 0 then .error "Weight cannot be negative"
  else .ok true

/-- `_validate_net_weight` (dMB.py 233-245). -/
def validate_net_weight (weight : Int) : Except String Bool :=
  if weight < 0 ∨ weight > 35000 then
    .error "Net weight must be between 0 and 35000 kg"
  else .ok true

/-- The evaluation of `has_geo` in `_validate_address` (dMB.py 257-258):
Python short-circuit `and` over two membership tests on the value of
`geo_coordinates`, which may raise a `TypeError` when that value is a number,
boolean or `None`. -/
def hasGeoE (address : JValue) : Except String Bool :=
  if jHasKey address "geo_coordinates" = false then .ok false
  else
    match pyContains (jGet address "geo_coordinates") "latitude" with
    | .error e => .error e
    | .ok false => .ok false
    | .ok true => pyContains (jGet address "geo_coordinates") "longitude"

/-- `_validate_address` (dMB.py 247-266; identical in dMB_client.py 146-165). -/
def validate_address (address : JValue) : Except String Bool :=
  match hasGeoE address with
  | .error e => .error e
  | .ok has_geo =>
    let has_address_fields :=
      jHasKey address "city" && jHasKey address "country" && jHasKey address "postal_code"
    if ¬ (has_geo || has_address_fields) then
      .error "Address must contain either geographic coordinates or city, country, and postal code"
    else .ok true

/-! ## Datetime validation (`_validate_date_time`, dMB.py 268-283)

The Python code is `datetime.fromisoformat(dt_str.replace('Z', '+00:00'))`
inside a try/except.  `datetime.fromisoformat` is CPython standard-library
code; we model the C implementation shipped with the Python 3.x lineage that
predates the 3.11 rewrite (`Modules/_datetimemodule.c`): a fixed-width
`YYYY-MM-DD` date, an arbitrary single separator character, a time of the form
`HH[:MM[:SS[.fff[fff]]]]`, an optional offset `[+-]HH:MM[:SS[.ffffff]]`
introduced by the first `+`/`-` in the time part, and the range checks of the
`datetime` and `timezone` constructors.  Corner cases involving dangling
separators differ between CPython versions and are not relied on by any
theorem below. -/

/-- Numeric value of an ASCII digit character. -/
def pyDigit (c : Char) : Option Nat :=
  if 48 ≤ c.toNat ∧ c.toNat ≤ 57 then some (c.toNat - 48) else none

/-- Read exactly two ASCII digits (`parse_digits(p, v, 2)`). -/
def parse2 : List Char → Option (Nat × List Char)
  | a :: b :: rest =>
    match pyDigit a, pyDigit b with
    | some x, some y => some (10 * x + y, rest)
    | _, _ => none
  | _ => none

/-- Read exactly four ASCII digits (`parse_digits(p, v, 4)`). -/
def parse4 (cs : List Char) : Option (Nat × List Char) :=
  match parse2 cs with
  | none => none
  | some (hi, r) =>
    match parse2 r with
    | none => none
    | some (lo, r2) => some (100 * hi + lo, r2)

/-- `parse_isoformat_date`: `YYYY-MM-DD`, returning the remainder. -/
def parseIsoDate (cs : List Char) : Option (Nat × Nat × Nat × List Char) :=
  match parse4 cs with
  | none => none
  | some (y, r1) =>
    match r1 with
    | '-' :: r2 =>
      match parse2 r2 with
      | none => none
      | some (mo, r3) =>
        match r3 with
        | '-' :: r4 =>
          match parse2 r4 with
          | none => none
          | some (d, r5) => some (y, mo, d, r5)
        | _ => none
    | _ => none

/-- Value of a run of ASCII digits (used for the fractional component). -/
def parseDigitsVal : List Char → Option Nat
  | [] => some 0
  | c :: rest =>
    match pyDigit c, parseDigitsVal rest with
    | some d, some v => some (d * 10 ^ rest.length + v)
    | _, _ => none

/-- Fractional seconds: exactly 3 or 6 digits, scaled to microseconds. -/
def parseFrac (cs : List Char) : Option Nat :=
  if cs.length = 3 then (parseDigitsVal cs).map (· * 1000)
  else if cs.length = 6 then parseDigitsVal cs
  else none

/-- `parse_hh_mm_ss_ff` on a slice: `HH[:MM[:SS[.fff[fff]]]]`, where a `:`
after the seconds also introduces the fractional part (the C loop exits after
three components and falls through to the fraction parser).  Succeeds only
when the slice is consumed exactly. -/
def parseHMS (cs : List Char) : Option (Nat × Nat × Nat × Nat) :=
  match parse2 cs with
  | none => none
  | some (h, rest) =>
    match rest with
    | [] => some (h, 0, 0, 0)
    | '.' :: fs => (parseFrac fs).map (fun us => (h, 0, 0, us))
    | ':' :: rest1 =>
      match parse2 rest1 with
      | none => none
      | some (m, rest2) =>
        match rest2 with
        | [] => some (h, m, 0, 0)
        | '.' :: fs => (parseFrac fs).map (fun us => (h, m, 0, us))
        | ':' :: rest3 =>
          match parse2 rest3 with
          | none => none
          | some (s, rest4) =>
            match rest4 with
            | [] => some (h, m, s, 0)
            | '.' :: fs => (parseFrac fs).map (fun us => (h, m, s, us))
            | ':' :: fs => (parseFrac fs).map (fun us => (h, m, s, us))
            | _ => none
        | _ => none
    | _ => none

/-- Split the time part at the first `+` or `-` (the offset search loop). -/
def splitAtSign : List Char → List Char × List Char
  | [] => ([], [])
  | c :: rest =>
    if c = '+' ∨ c = '-' then ([], c :: rest)
    else
      match splitAtSign rest with
      | (a, b) => (c :: a, b)

/-- `parse_isoformat_time`: time components plus the offset magnitude in
microseconds, when an offset is present.  The offset string (sign included)
must have length 6, 9 or 16. -/
def parseIsoTime (tcs : List Char) : Option (Nat × Nat × Nat × Nat × Option Nat) :=
  match splitAtSign tcs with
  | (timestr, tzstr) =>
    match parseHMS timestr with
    | none => none
    | some (h, m, s, us) =>
      match tzstr with
      | [] => some (h, m, s, us, none)
      | _ :: tzrest =>
        if tzrest.length = 5 ∨ tzrest.length = 8 ∨ tzrest.length = 15 then
          match parseHMS tzrest with
          | none => none
          | some (th, tm, ts, tus) =>
            some (h, m, s, us, some ((th * 3600 + tm * 60 + ts) * 1000000 + tus))
        else none

/-- Leap year test of the `datetime` module. -/
def isLeapYear (y : Nat) : Bool :=
  y % 4 = 0 && (y % 100 ≠ 0 || y % 400 = 0)

/-- Days in a month, as enforced by the `datetime` constructor. -/
def daysInMonth (y mo : Nat) : Nat :=
  if mo = 2 then (if isLeapYear y then 29 else 28)
  else if mo = 4 ∨ mo = 6 ∨ mo = 9 ∨ mo = 11 then 30
  else 31

/-- `datetime.fromisoformat(s)` succeeds: the date parses, the optional time
part (after skipping one arbitrary separator character) parses, and all
components pass the constructor range checks (the timezone offset must be
strictly smaller than 24 hours in magnitude). -/
def pyFromisoformatValid (s : String) : Bool :=
  match parseIsoDate s.data with
  | none => false
  | some (y, mo, d, rest) =>
    let dateOk : Bool :=
      1 ≤ y && y ≤ 9999 && 1 ≤ mo && mo ≤ 12 && 1 ≤ d && d ≤ daysInMonth y mo
    match rest with
    | [] => dateOk
    | _sep :: tcs =>
      match parseIsoTime tcs with
      | none => false
      | some (h, m, sec, _us, off) =>
        dateOk && h ≤ 23 && m ≤ 59 && sec ≤ 59 &&
          (match off with
           | none => true
           | some magnitude => magnitude < 86400000000)

/-- `dt_str.replace('Z', '+00:00')`: every occurrence of `Z` is replaced. -/
def replaceZchars : List Char → List Char
  | [] => []
  | c :: rest =>
    if c = 'Z' then '+' :: '0' :: '0' :: ':' :: '0' :: '0' :: replaceZchars rest
    else c :: replaceZchars rest

/-- String-level wrapper for `replaceZchars`. -/
def replaceZ (s : String) : String := ⟨replaceZchars s.data⟩

/-- `_validate_date_time` (dMB.py 268-283; identical in dMB_client.py
167-182). -/
def validate_date_time (dt_str : String) : Except String Bool :=
  if pyFromisoformatValid (replaceZ dt_str) then .ok true
  else .error "Datetime must be in RFC 3339 format (e.g., 2021-01-31T12:30:25Z)"

/-! ## Document validators -/

/-- `TransportCategory` values (dMB.py 9-15). -/
def transportCategories : List String :=
  ["IMPORT", "EXPORT", "EMPTY_PICKUP", "EMPTY_RETURN", "ROUND_TRIP"]

/-- `LoadStatus` values (dMB.py 18-21). -/
def loadStatuses : List String := ["EMPTY", "FULL"]

/-- `LoadingPointType` values (dMB.py 24-32; dMB_client.py 8-16). -/
def loadingPointTypes : List String :=
  ["WAREHOUSE", "WEIGHING_STATION", "SEAPORT_TERMINAL", "RAILWAY_TERMINAL",
   "CUSTOMS_OFFICE", "CONTAINER_DEPOT", "VETERINARY_OFFICE"]

/-- `ContainerServiceType` values (dMB.py 35-52). -/
def containerServiceTypes : List String :=
  ["ACTIVE_COOLING", "CUSTOMS_CLEARANCE", "EXPORT_CUSTOMS", "IMPORT_CUSTOMS",
   "VETERINARY_CONTROL", "VET_STOP", "EXTRA_STORAGE_DAY_20",
   "EXTRA_STORAGE_DAY_40", "HANDLING_DEPOT", "CUSTODIAN_CHANGE",
   "CHANGE_FEE_1", "CHANGE_FEE_2", "CHANGE_FEE_3", "CHANGE_FEE_4",
   "CHANGE_FEE_5", "CHASSIS_RENTAL"]

/-- A value is (the string value of) a member of an enumeration: Python
`v in [e.value for e in Enum]` and `Enum(v)` both succeed exactly on member
strings (Python string equality is by value; non-strings never match). -/
def jIsEnumVal (vals : List String) : JValue → Bool
  | .str s => s ∈ vals
  | _ => false

/-- The message raised when two or more loading points are marked as the
provision location (dMB.py 541; dMB_client.py 243). -/
def provisionMsg : String := "Route can have at most one provision location"

/-- The per-point body of the loading-point loop in `_validate_quotation_data`
(dMB.py 516-534): type, sequence number and address checks, fail-fast. -/
def validateLoadingPoint (point : JValue) : Except String Bool :=
  if ¬ jHasKey point "type" then .error "Loading point must specify a type"
  else if ¬ jIsEnumVal loadingPointTypes (jGet point "type") then
    .error ("Invalid loading point type: " ++ jStr (jGet point "type"))
  else if ¬ jHasKey point "sequence_number" then
    .error "Loading point must specify a sequence number"
  else
    match jltZero (jGet point "sequence_number") with
    | .error e => .error e
    | .ok neg =>
      if neg then .error "Loading point sequence number must be non-negative"
      else if ¬ jHasKey point "address" then
        .error "Loading point must specify an address"
      else validate_address (jGet point "address")

/-- The loading-point loop, fail-fast over the list of points. -/
def validatePoints : List JValue → Except String Bool
  | [] => .ok true
  | p :: rest =>
    match validateLoadingPoint p with
    | .error e => .error e
    | .ok _ => validatePoints rest

/-- Number of points whose `provision_location` entry is present and truthy
(the `provision_locations` counter of dMB.py 515, 536-538).  The Python code
counts inside the same loop; since the loop is fail-fast and the count is only
read after the loop completes, counting separately is equivalent. -/
def countProvision (pts : List JValue) : Nat :=
  pts.countP fun p =>
    jHasKey p "provision_location" && truthy (jGet p "provision_location")

/-- Passing a dictionary value to `_validate_iso_code`: a string goes to the
validator; a falsy non-string short-circuits `not iso_code` and raises the
length ValueError, while a truthy non-string raises TypeError at
`len(iso_code)`. -/
def isoArgCheck (isoCheck : String → Except String Bool) : JValue → Except String Bool
  | .str s => isoCheck s
  | v =>
    if truthy v = false then .error "ISO code must be at most 4 characters"
    else .error "TypeError: value has no len"

/-- Passing a dictionary value to `_validate_date_time`: a string goes to the
validator; a non-string fails at `dt_str.replace`. -/
def dtArgCheck : JValue → Except String Bool
  | .str s => validate_date_time s
  | _ => .error "AttributeError: value has no replace method"

/-- The per-container body of the container loop in `_validate_quotation_data`
(dMB.py 547-562), parameterised by the ISO-code validator (the only point
where the two source variants differ). -/
def validateQuotationContainer (isoCheck : String → Except String Bool)
    (container : JValue) : Except String Bool :=
  if ¬ jHasKey container "sequence_number" then
    .error "Container must specify a sequence number"
  else
    match jltZero (jGet container "sequence_number") with
    | .error e => .error e
    | .ok neg =>
      if neg then .error "Container sequence number must be non-negative"
      else if ¬ jHasKey container "type_code" then
        .error "Container must specify a type code"
      else
        match isoArgCheck isoCheck (jGet container "type_code") with
        | .error e => .error e
        | .ok _ =>
          if ¬ jHasKey container "provision_at" then
            .error "Container must specify a provision date"
          else dtArgCheck (jGet container "provision_at")

/-- The quotation container loop, fail-fast. -/
def validateQuotationContainers (isoCheck : String → Except String Bool) :
    List JValue → Except String Bool
  | [] => .ok true
  | c :: rest =>
    match validateQuotationContainer isoCheck c with
    | .error e => .error e
    | .ok _ => validateQuotationContainers isoCheck rest

/-- `_validate_quotation_data` (dMB.py 498-564 and dMB_client.py 200-266),
parameterised by the ISO-code validator: `validate_iso_code` in dMB.py,
`validate_iso_code_client` in dMB_client.py. -/
def validateQuotationCore (isoCheck : String → Except String Bool)
    (quotation_data : JValue) : Except String Bool :=
  if ¬ jHasKey quotation_data "route" then
    .error "Quotation data must contain a route field"
  else if ¬ (jHasKey (jGet quotation_data "route") "route_loading_points" &&
             truthy (jGet (jGet quotation_data "route") "route_loading_points")) then
    .error "Route must contain at least one loading point"
  else
    match jElemsE (jGet (jGet quotation_data "route") "route_loading_points") with
    | .error e => .error e
    | .ok pts =>
      match validatePoints pts with
      | .error e => .error e
      | .ok _ =>
        if countProvision pts > 1 then .error provisionMsg
        else if ¬ (jHasKey quotation_data "containers" &&
                   truthy (jGet quotation_data "containers")) then
          .error "Quotation must contain at least one container"
        else
          match jElemsE (jGet quotation_data "containers") with
          | .error e => .error e
          | .ok cs => validateQuotationContainers isoCheck cs

/-- `_validate_quotation_data` of dMB.py (loose ISO-code check). -/
def validate_quotation_data (d : JValue) : Except String Bool :=
  validateQuotationCore validate_iso_code d

/-- `_validate_quotation_data` of dMB_client.py (strict ISO-code check). -/
def validate_quotation_data_client (d : JValue) : Except String Bool :=
  validateQuotationCore validate_iso_code_client d

/-- The per-service body of the services loop in `_validate_container_data`
(dMB.py 483-494). -/
def validateService (service : JValue) : Except String Bool :=
  if ¬ jHasKey service "type" then .error "Container service must specify a type"
  else if ¬ jIsEnumVal containerServiceTypes (jGet service "type") then
    .error ("Invalid container service type: " ++ jStr (jGet service "type"))
  else if jHasKey service "quantity" &&
      (¬ pyIsInt (jGet service "quantity") || pyIntVal (jGet service "quantity") ≤ 0) then
    .error "Container service quantity must be a positive integer"
  else .ok true

/-- The services loop, fail-fast. -/
def validateServices : List JValue → Except String Bool
  | [] => .ok true
  | s :: rest =>
    match validateService s with
    | .error e => .error e
    | .ok _ => validateServices rest

/-- `_validate_container_data` (dMB.py 449-496). -/
def validate_container_data (container : JValue) : Except String Bool :=
  if ¬ jHasKey container "sequence_number" then
    .error "Container must specify sequence_number"
  else if ¬ jHasKey container "type_code" then
    .error "Container must specify type_code"
  else
    match jltZero (jGet container "sequence_number") with
    | .error e => .error e
    | .ok neg =>
      if neg then .error "Container sequence number must be non-negative"
      else
        match isoArgCheck validate_iso_code (jGet container "type_code") with
        | .error e => .error e
        | .ok _ =>
          match (if jHasKey container "provision_at" then
                   dtArgCheck (jGet container "provision_at")
                 else .ok true) with
          | .error e => .error e
          | .ok _ =>
            match (if jHasKey container "assumed_net_weight" then
                     match jGet container "assumed_net_weight" with
                     | .int n => validate_net_weight n
                     | .bool b => validate_net_weight (if b then 1 else 0)
                     | _ => .error "TypeError: value is not comparable with int"
                   else .ok true) with
            | .error e => .error e
            | .ok _ =>
              match (if jHasKey container "assumed_tara" then
                       match jGet container "assumed_tara" with
                       | .int n => validate_weight n
                       | .bool b => validate_weight (if b then 1 else 0)
                       | _ => .error "TypeError: value is not comparable with int"
                     else .ok true) with
              | .error e => .error e
              | .ok _ =>
                if jHasKey container "services" && truthy (jGet container "services") then
                  match jElemsE (jGet container "services") with
                  | .error e => .error e
                  | .ok ss => validateServices ss
                else .ok true

/-- The booking container loop, fail-fast. -/
def validateBookingContainers : List JValue → Except String Bool
  | [] => .ok true
  | c :: rest =>
    match validate_container_data c with
    | .error e => .error e
    | .ok _ => validateBookingContainers rest

/-- `_validate_booking_data` (dMB.py 414-447).  Note that the containers list
is read from the top level of `booking_data`, not from inside the `booking`
sub-object. -/
def validate_booking_data (booking_data : JValue) : Except String Bool :=
  if ¬ jHasKey booking_data "booking" then
    .error "Booking data must contain a booking field"
  else if ¬ jHasKey (jGet booking_data "booking") "transport_category" then
    .error "Booking must specify a transport category"
  else if ¬ jIsEnumVal transportCategories
      (jGet (jGet booking_data "booking") "transport_category") then
    .error ("Invalid transport category: " ++
      jStr (jGet (jGet booking_data "booking") "transport_category"))
  else if ¬ jHasKey (jGet booking_data "booking") "load_status" then
    .error "Booking must specify a load status"
  else if ¬ jIsEnumVal loadStatuses
      (jGet (jGet booking_data "booking") "load_status") then
    .error ("Invalid load status: " ++
      jStr (jGet (jGet booking_data "booking") "load_status"))
  else if ¬ (jHasKey booking_data "containers" &&
             truthy (jGet booking_data "containers")) then
    .error "Booking must contain at least one container"
  else
    match jElemsE (jGet booking_data "containers") with
    | .error e => .error e
    | .ok cs => validateBookingContainers cs

/-! ## Operations with a concurrency token -/

/-- An outbound HTTP request as assembled by the client right before the
network call; producing a `Request` models reaching `_make_request`. -/
structure Request where
  method : String
  endpoint : String
  body : Option JValue := none
  containerNumbersParam : Option (List String) := none
  seqNumbersParam : Option (List Int) := none
  ifMatch : Option String := none

/-- Python falsiness of an optional string argument (`if not if_match:`):
true for `None` and for the empty string. -/
def pyOptStrFalsy : Option String → Bool
  | none => true
  | some s => s = ""

/-- `update_booking` (dMB.py 315-338): validations and the If-Match check run
locally; an `.ok` result carries the request that would be dispatched. -/
def update_booking (job_order_ref : String) (booking_data : JValue)
    (if_match : Option String) : Except String Request :=
  match validate_job_order_ref job_order_ref with
  | .error e => .error e
  | .ok _ =>
    match validate_booking_data booking_data with
    | .error e => .error e
    | .ok _ =>
      if pyOptStrFalsy if_match then
        .error "If-Match header is required for booking updates"
      else
        .ok { method := "PUT", endpoint := "/bookings/" ++ job_order_ref,
              body := some booking_data, ifMatch := if_match }

/-- The container-number loop of `cancel_containers` (dMB.py 361-363). -/
def loopContainerNumbers : List String → Except String Bool
  | [] => .ok true
  | n :: rest =>
    match validate_container_number n with
    | .error e => .error e
    | .ok _ => loopContainerNumbers rest

/-- The sequence-number loop of `cancel_containers` (dMB.py 365-368). -/
def loopSeqNumbers : List Int → Except String Bool
  | [] => .ok true
  | n :: rest =>
    if n < 0 then .error "Container sequence numbers must be non-negative"
    else loopSeqNumbers rest

/-- `cancel_containers` (dMB.py 340-384).  `if container_numbers:` guards each
loop, so `None` and the empty list are skipped; the If-Match check runs after
the loops and before the request is dispatched. -/
def cancel_containers (job_order_ref : String)
    (container_numbers : Option (List String))
    (container_sequence_numbers : Option (List Int))
    (if_match : Option String) : Except String Request :=
  match validate_job_order_ref job_order_ref with
  | .error e => .error e
  | .ok _ =>
    match (match container_numbers with
           | none => Except.ok true
           | some l => if l.isEmpty then Except.ok true else loopContainerNumbers l) with
    | .error e => .error e
    | .ok _ =>
      match (match container_sequence_numbers with
             | none => Except.ok true
             | some l => if l.isEmpty then Except.ok true else loopSeqNumbers l) with
      | .error e => .error e
      | .ok _ =>
        if pyOptStrFalsy if_match then
          .error "If-Match header is required for container cancellation"
        else
          .ok { method := "DELETE",
                endpoint := "/bookings/" ++ job_order_ref ++ "/containers",
                containerNumbersParam :=
                  (match container_numbers with
                   | none => none
                   | some l => if l.isEmpty then none else some l),
                seqNumbersParam :=
                  (match container_sequence_numbers with
                   | none => none
                   | some l => if l.isEmpty then none else some l),
                ifMatch := if_match }

/-! ## Request dispatcher (`_make_request`, dMB.py 115-172) -/

/-- The data carried by `DriveMyBoxAPIException` (dMB.py 62-68). -/
structure APIExceptionData where
  status_code : Nat
  message : String
  details : Option JValue

/-- An HTTP response as seen by `_make_request`: status, reason phrase, raw
body text, the result of `response.json()` (`none` when the body is not
parseable as JSON), and the optional ETag header. -/
structure HttpResponse where
  status_code : Nat
  reason : String
  text : String
  jsonBody : Option JValue
  etag : Option String

/-- Outcome of the underlying `requests.request` call: either a transport
failure (`requests.RequestException`, no response) or a response. -/
inductive TransportOutcome where
  | transportError (msg : String)
  | response (r : HttpResponse)

/-- `_make_request` (dMB.py 115-172): transport failures become a synthetic
500 error with no details; responses with status at least 400 raise with the
real status, reason and parsed error body (raw-text fallback); otherwise the
parsed body is returned, or an empty dict when the body is absent.  An
unparseable body on a success response raises `requests` JSONDecodeError,
which the surrounding handler converts to the synthetic 500 error.  The ETag
capture on the instance (dMB.py 146-148) has no effect on the returned value
and is not modelled. -/
def make_request (outcome : TransportOutcome) : Except APIExceptionData JValue :=
  match outcome with
  | .transportError msg =>
    .error { status_code := 500, message := "Request failed: " ++ msg, details := none }
  | .response r =>
    if r.status_code ≥ 400 then
      .error { status_code := r.status_code,
               message := "API request failed: " ++ r.reason,
               details := some (match r.jsonBody with
                                | some j => j
                                | none => .obj [("raw", .str r.text)]) }
    else if r.text ≠ "" then
      match r.jsonBody with
      | some j => .ok j
      | none =>
        .error { status_code := 500,
                 message := "Request failed: response body is not valid JSON",
                 details := none }
    else .ok (.obj [])

/-! ## Spec-side RFC 3339 grammar and canonical timestamps (for comparison
with `validate_date_time`) -/

/-- All characters are ASCII digits. -/
def rfcDigits (cs : List Char) : Bool := cs.all fun c => (pyDigit c).isSome

/-- Numeric value of two digit characters. -/
def rfcNum2 (a b : Char) : Nat := (pyDigit a).getD 0 * 10 + (pyDigit b).getD 0

/-- Numeric value of four digit characters. -/
def rfcNum4 (a b c d : Char) : Nat := rfcNum2 a b * 100 + rfcNum2 c d

/-- RFC 3339 `time-offset`: `Z` (case-insensitive) or `(+|-)HH:MM` with
hours at most 23 and minutes at most 59. -/
def rfc3339Offset : List Char → Bool
  | ['Z'] => true
  | ['z'] => true
  | [sg, h1, h2, ':', m1, m2] =>
    (sg = '+' || sg = '-') && rfcDigits [h1, h2, m1, m2] &&
    decide (rfcNum2 h1 h2 ≤ 23) && decide (rfcNum2 m1 m2 ≤ 59)
  | _ => false

/-- RFC 3339 tail after the seconds: an optional `time-secfrac` (`.` followed
by one or more digits) and then the `time-offset`. -/
def rfc3339Tail : List Char → Bool
  | '.' :: rest =>
    let ds := rest.takeWhile fun c => (pyDigit c).isSome
    ¬ ds.isEmpty && rfc3339Offset (rest.drop ds.length)
  | cs => rfc3339Offset cs

/-- Modelled from the spec: the spec states that `validate_datetime` accepts
exactly the RFC 3339 timestamps (with the trailing-`Z` shorthand).  This is
the RFC 3339 `date-time` grammar as written in RFC 3339 section 5.6:
`full-date "T" full-time`, with case-insensitive `T`/`Z`, month 01-12, a valid
day of month, hour 00-23, minute 00-59, second 00-60 (leap second), an
optional fractional-second part of one or more digits, and a numeric offset
`(+|-)HH:MM`. -/
def rfc3339_spec (s : String) : Bool :=
  match s.data with
  | y1 :: y2 :: y3 :: y4 :: '-' :: m1 :: m2 :: '-' :: d1 :: d2 :: t ::
      h1 :: h2 :: ':' :: mi1 :: mi2 :: ':' :: s1 :: s2 :: rest =>
    rfcDigits [y1, y2, y3, y4, m1, m2, d1, d2, h1, h2, mi1, mi2, s1, s2] &&
    (t = 'T' || t = 't') &&
    decide (1 ≤ rfcNum2 m1 m2) && decide (rfcNum2 m1 m2 ≤ 12) &&
    decide (1 ≤ rfcNum2 d1 d2) &&
    decide (rfcNum2 d1 d2 ≤ daysInMonth (rfcNum4 y1 y2 y3 y4) (rfcNum2 m1 m2)) &&
    decide (rfcNum2 h1 h2 ≤ 23) && decide (rfcNum2 mi1 mi2 ≤ 59) &&
    decide (rfcNum2 s1 s2 ≤ 60) &&
    rfc3339Tail rest
  | _ => false

/-- Two-digit zero-padded decimal rendering. -/
def pad2 (n : Nat) : List Char := [Char.ofNat (48 + n / 10), Char.ofNat (48 + n % 10)]

/-- Four-digit zero-padded decimal rendering. -/
def pad4 (n : Nat) : List Char := pad2 (n / 100) ++ pad2 (n % 100)

/-- The canonical RFC 3339 timestamp `YYYY-MM-DDTHH:MM:SSZ`. -/
def renderTsZ (y mo d h mi se : Nat) : String :=
  ⟨pad4 y ++ '-' :: (pad2 mo ++ '-' :: (pad2 d ++ 'T' ::
    (pad2 h ++ ':' :: (pad2 mi ++ ':' :: (pad2 se ++ ['Z'])))))⟩

/-! ## Helper lemmas -/

theorem string_data_app (s t : String) : (s ++ t).data = s.data ++ t.data :=
  String.data_append s t

theorem isOk_error {e : String} {a : Type} : (Except.error e : Except String a).isOk = false := rfl

theorem isOk_ok {a : Type} (x : a) : (Except.ok x : Except String a).isOk = true := rfl

/-- A nonempty `jGet` result implies the key is present. -/
theorem jGet_hasKey (v : JValue) (k : String) (h : jGet v k ≠ .null) :
    jHasKey v k = true := by
  cases v <;> simp [jGet, jHasKey] at *
  next fs =>
    cases hl : jLookup fs k <;> simp [hl] at h ⊢

/-- Messages built by prefixing `Invalid loading point type: ` never equal the
provision-location message. -/
theorem invalid_lpt_ne_provision (x : String) :
    "Invalid loading point type: " ++ x ≠ provisionMsg := by
  intro h
  have h2 := congrArg String.data h
  rw [string_data_app] at h2
  have h3 : "Invalid loading point type: ".data =
      'I' :: "nvalid loading point type: ".data := rfl
  have h4 : provisionMsg.data =
      'R' :: "oute can have at most one provision location".data := rfl
  rw [h3, h4, List.cons_append] at h2
  simp at h2

/-! ## Claim theorems -/

/-- Claim C6: `validate_weight` succeeds exactly for weights at least 0, and
`validate_net_weight` succeeds exactly for net weights in the inclusive
interval [0, 35000]; in particular it fails at -1 and at 35001. -/
theorem claim_C6_weight_validation :
    (∀ w : Int, validate_weight w = .ok true ↔ 0 ≤ w) ∧
    (∀ w : Int, validate_net_weight w = .ok true ↔ 0 ≤ w ∧ w ≤ 35000) ∧
    validate_net_weight (-1) = .error "Net weight must be between 0 and 35000 kg" ∧
    validate_net_weight 35001 = .error "Net weight must be between 0 and 35000 kg" := by
  refine ⟨fun w => ?_, fun w => ?_, rfl, rfl⟩
  · unfold validate_weight
    split <;> simp_all <;> omega
  · unfold validate_net_weight
    split <;> simp_all <;> omega

/-- Claim C3 counterexample: the fixed allow-list in the strict ISO-code
validator has 32 pairwise-distinct codes, not 33. -/
theorem claim_C3_counterexample :
    permittedIsoCodes.length = 32 ∧ permittedIsoCodes.Nodup :=
  ⟨rfl, by decide⟩

/-- Claim C3 (amended): the strict `validate_iso_code_client` succeeds for a
code exactly when the code is non-empty, has length at most 4, and belongs to
the fixed 32-element allow-list; every listed code is accepted and every code
longer than 4 characters or outside the list is rejected. -/
theorem claim_C3_strict_iso :
    ∀ code : String, validate_iso_code_client code = .ok true ↔
      code ≠ "" ∧ code.length ≤ 4 ∧ code ∈ permittedIsoCodes := by
  intro code
  unfold validate_iso_code_client
  split
  next h =>
    constructor
    · intro hh; simp at hh
    · rintro ⟨h1, h2, _⟩
      rcases h with h | h
      · exact absurd h h1
      · omega
  next h =>
    split
    next h2 =>
      constructor
      · intro hh; simp at hh
      · rintro ⟨_, _, h3⟩; exact absurd h3 h2
    next h2 =>
      push_neg at h
      constructor
      · intro _; exact ⟨h.1, by omega, not_not.mp h2⟩
      · intro _; rfl

/-- Claim C8: the strict ISO-code validator refines the loose one: every code
the strict variant accepts is accepted by the loose variant, and both reject
every empty code and every code longer than 4 characters. -/
theorem claim_C8_iso_refinement :
    (∀ code : String, validate_iso_code_client code = .ok true →
      validate_iso_code code = .ok true) ∧
    (∀ code : String, code = "" ∨ code.length > 4 →
      (validate_iso_code code).isOk = false ∧
      (validate_iso_code_client code).isOk = false) := by
  constructor
  · intro code h
    unfold validate_iso_code_client at h
    unfold validate_iso_code
    split
    next hc => rw [if_pos hc] at h; simp at h
    next hc => rfl
  · intro code h
    unfold validate_iso_code validate_iso_code_client
    rw [if_pos h, if_pos h]
    exact ⟨rfl, rfl⟩

/-- Witness for C8 at concrete codes: the strict validator accepts `22G1`, so
the loose one does as well, and `TOOLONG` is rejected by the loose variant. -/
theorem claim_C8_iso_refinement_witness :
    validate_iso_code "22G1" = .ok true ∧ (validate_iso_code "TOOLONG").isOk = false :=
  ⟨claim_C8_iso_refinement.1 "22G1" rfl,
   (claim_C8_iso_refinement.2 "TOOLONG" (Or.inr (by decide))).1⟩

/-- Claim C4: when the `if_match` token is absent (or empty, which Python
treats identically), `update_booking` and `cancel_containers` never produce a
request: the result is a locally-raised error, whatever the other
arguments. -/
theorem claim_C4_if_match_required :
    (∀ (jref : String) (bdata : JValue) (im : Option String),
      pyOptStrFalsy im = true → (update_booking jref bdata im).isOk = false) ∧
    (∀ (jref : String) (cns : Option (List String)) (sns : Option (List Int))
      (im : Option String),
      pyOptStrFalsy im = true → (cancel_containers jref cns sns im).isOk = false) := by
  constructor
  · intro jref bdata im him
    unfold update_booking
    cases h1 : validate_job_order_ref jref with
    | error e => simp [isOk_error]
    | ok b =>
      cases h2 : validate_booking_data bdata with
      | error e => simp [isOk_error]
      | ok b2 => rw [if_pos him]; rfl
  · intro jref cns sns im him
    unfold cancel_containers
    cases h1 : validate_job_order_ref jref with
    | error e => simp [isOk_error]
    | ok b =>
      cases h2 : (match cns with
                  | none => Except.ok true
                  | some l => if l.isEmpty then Except.ok true
                              else loopContainerNumbers l) with
      | error e => simp [isOk_error]
      | ok b2 =>
        cases h3 : (match sns with
                    | none => Except.ok true
                    | some l => if l.isEmpty then Except.ok true
                                else loopSeqNumbers l) with
        | error e => simp [isOk_error]
        | ok b3 => rw [if_pos him]; rfl

/-- Witness for C4: with an otherwise-valid booking document and valid query
parameters, both operations fail locally when the token is `None`. -/
theorem claim_C4_if_match_required_witness :
    (update_booking "REF-1"
      (JValue.obj
        [("booking", JValue.obj [("transport_category", JValue.str "IMPORT"),
                                 ("load_status", JValue.str "FULL")]),
         ("containers", JValue.arr [JValue.obj
           [("sequence_number", JValue.int 1),
            ("type_code", JValue.str "22G1")]])])
      none).isOk = false ∧
    (cancel_containers "REF-1" (some ["ABCD1234567"]) (some [(3 : Int)])
      none).isOk = false :=
  ⟨claim_C4_if_match_required.1 _ _ none rfl,
   claim_C4_if_match_required.2 _ _ _ none rfl⟩

/-- If the container-number loop meets a number that is not 11 characters
long, it fails. -/
theorem loopContainerNumbers_err (l : List String) (bad : String)
    (hmem : bad ∈ l) (hlen : bad.length ≠ 11) :
    (loopContainerNumbers l).isOk = false := by
  induction l with
  | nil => cases hmem
  | cons x rest ih =>
    unfold loopContainerNumbers
    cases hv : validate_container_number x with
    | error e => simp [isOk_error]
    | ok b =>
      rcases List.mem_cons.mp hmem with h | h
      · subst h
        unfold validate_container_number at hv
        rw [if_pos (Or.inr hlen)] at hv
        simp at hv
      · simpa using ih h

/-- If the sequence-number loop meets a negative number, it fails. -/
theorem loopSeqNumbers_err (l : List Int) (bad : Int)
    (hmem : bad ∈ l) (hneg : bad < 0) :
    (loopSeqNumbers l).isOk = false := by
  induction l with
  | nil => cases hmem
  | cons x rest ih =>
    unfold loopSeqNumbers
    split
    · simp [isOk_error]
    next hx =>
      rcases List.mem_cons.mp hmem with h | h
      · subst h; exact absurd hneg hx
      · exact ih h

/-- Claim C10: `cancel_containers` validates its query parameters locally:
a supplied container number that is not exactly 11 characters, or a supplied
negative container sequence number, prevents any request from being
produced. -/
theorem claim_C10_cancel_local_validation :
    (∀ (jref : String) (cns : List String) (sns : Option (List Int))
      (im : Option String) (bad : String), bad ∈ cns → bad.length ≠ 11 →
      (cancel_containers jref (some cns) sns im).isOk = false) ∧
    (∀ (jref : String) (cns : Option (List String)) (sns : List Int)
      (im : Option String) (n : Int), n ∈ sns → n < 0 →
      (cancel_containers jref cns (some sns) im).isOk = false) := by
  constructor
  · intro jref cns sns im bad hmem hlen
    unfold cancel_containers
    cases h1 : validate_job_order_ref jref with
    | error e => simp [isOk_error]
    | ok b =>
      have hne : cns.isEmpty = false := by
        cases cns
        · cases hmem
        · rfl
      have hloop := loopContainerNumbers_err cns bad hmem hlen
      simp only [hne, Bool.false_eq_true, if_false]
      cases hl : loopContainerNumbers cns with
      | error e => simp [isOk_error]
      | ok b2 => rw [hl] at hloop; exact absurd hloop (by simp [isOk_ok])
  · intro jref cns sns im n hmem hneg
    unfold cancel_containers
    cases h1 : validate_job_order_ref jref with
    | error e => simp [isOk_error]
    | ok b =>
      cases h2 : (match cns with
                  | none => Except.ok true
                  | some l => if l.isEmpty then Except.ok true
                              else loopContainerNumbers l) with
      | error e => simp [isOk_error]
      | ok b2 =>
        have hne : sns.isEmpty = false := by
          cases sns
          · cases hmem
          · rfl
        have hloop := loopSeqNumbers_err sns n hmem hneg
        simp only [hne, Bool.false_eq_true, if_false]
        cases hl : loopSeqNumbers sns with
        | error e => simp [isOk_error]
        | ok b3 => rw [hl] at hloop; exact absurd hloop (by simp [isOk_ok])

/-- Witness for C10: a 5-character container number and a negative sequence
number each block the request, whatever the token. -/
theorem claim_C10_cancel_local_validation_witness :
    (cancel_containers "REF-1" (some ["SHORT"]) none (some "etag")).isOk = false ∧
    (cancel_containers "REF-1" none (some [(-1 : Int)]) (some "etag")).isOk = false :=
  ⟨claim_C10_cancel_local_validation.1 "REF-1" ["SHORT"] none (some "etag") "SHORT"
    (by simp) (by decide),
   claim_C10_cancel_local_validation.2 "REF-1" none [(-1 : Int)] (some "etag") (-1)
    (by simp) (by decide)⟩

/-- Claim C5: the dispatcher maps a transport failure to a synthetic 500 error
with no details; a response with status at least 400 to an error with the real
status, the reason string, and the parsed JSON error body (raw-text fallback)
as details; and any other response to the parsed body, or an empty mapping
when the body is absent. -/
theorem claim_C5_make_request :
    (∀ msg, make_request (.transportError msg) =
      .error ⟨500, "Request failed: " ++ msg, none⟩) ∧
    (∀ r : HttpResponse, 400 ≤ r.status_code →
      make_request (.response r) =
      .error ⟨r.status_code, "API request failed: " ++ r.reason,
              some (match r.jsonBody with
                    | some j => j
                    | none => JValue.obj [("raw", JValue.str r.text)])⟩) ∧
    (∀ r : HttpResponse, r.status_code < 400 → r.text = "" →
      make_request (.response r) = .ok (JValue.obj [])) ∧
    (∀ r : HttpResponse, r.status_code < 400 → r.text ≠ "" →
      ∀ j, r.jsonBody = some j → make_request (.response r) = .ok j) := by
  refine ⟨fun msg => rfl, fun r h => ?_, fun r h ht => ?_, fun r h ht j hj => ?_⟩
  · simp only [make_request]
    rw [if_pos h]
  · have hn : ¬ (400 ≤ r.status_code) := by omega
    simp only [make_request]
    rw [if_neg hn, if_neg (by simp [ht])]
  · have hn : ¬ (400 ≤ r.status_code) := by omega
    simp only [make_request]
    rw [if_neg hn, if_pos ht, hj]

/-- Witness for C5: a simulated 401 response with a JSON error body yields an
API error with status 401 and that body in the details. -/
theorem claim_C5_make_request_witness :
    make_request (.response ⟨401, "Unauthorized", "body",
      some (.obj [("message", .str "bad key")]), none⟩) =
    .error ⟨401, "API request failed: Unauthorized",
            some (.obj [("message", .str "bad key")])⟩ :=
  claim_C5_make_request.2.1 _ (by decide)

/-- A value that is a member string of an enumeration is not `null`. -/
theorem jIsEnumVal_ne_null (vals : List String) (v : JValue)
    (h : jIsEnumVal vals v = true) : v ≠ JValue.null := by
  intro he
  subst he
  simp [jIsEnumVal] at h

/-- Claim C9: `_validate_booking_data` reads the containers list from the top
level of the document; a document whose non-empty containers list is only
nested inside the `booking` sub-object fails with the missing-containers
error, even when the transport category and load status are valid. -/
theorem claim_C9_booking_containers_top_level :
    ∀ d : JValue, jHasKey d "booking" = true →
      jIsEnumVal transportCategories
        (jGet (jGet d "booking") "transport_category") = true →
      jIsEnumVal loadStatuses (jGet (jGet d "booking") "load_status") = true →
      (jHasKey d "containers" = false ∨ truthy (jGet d "containers") = false) →
      truthy (jGet (jGet d "booking") "containers") = true →
      validate_booking_data d = .error "Booking must contain at least one container" := by
  intro d hbk htc hls hco _hnested
  have h1 : jHasKey (jGet d "booking") "transport_category" = true :=
    jGet_hasKey _ _ (jIsEnumVal_ne_null _ _ htc)
  have h2 : jHasKey (jGet d "booking") "load_status" = true :=
    jGet_hasKey _ _ (jIsEnumVal_ne_null _ _ hls)
  have hcf : (jHasKey d "containers" && truthy (jGet d "containers")) = false := by
    rcases hco with h | h <;> simp [h]
  unfold validate_booking_data
  rw [if_neg (by simp [hbk]), if_neg (by simp [h1]), if_neg (by simp [htc]),
      if_neg (by simp [h2]), if_neg (by simp [hls]), if_pos (by simp [hcf])]

/-- Witness for C9: a booking whose containers sit only inside the `booking`
sub-object is rejected with the missing-containers error. -/
theorem claim_C9_booking_containers_top_level_witness :
    validate_booking_data
      (JValue.obj
        [("booking", JValue.obj
          [("transport_category", JValue.str "IMPORT"),
           ("load_status", JValue.str "FULL"),
           ("containers", JValue.arr [JValue.obj
             [("sequence_number", JValue.int 1),
              ("type_code", JValue.str "22G1")]])])]) =
    .error "Booking must contain at least one container" :=
  claim_C9_booking_containers_top_level _ rfl rfl rfl (Or.inl rfl) rfl

/-- `has_geo` evaluates to `True` exactly when `geo_coordinates` is present
and both membership tests pass. -/
theorem hasGeoE_ok_true_iff (a : JValue) :
    hasGeoE a = .ok true ↔
      (jHasKey a "geo_coordinates" = true ∧
       pyContains (jGet a "geo_coordinates") "latitude" = .ok true ∧
       pyContains (jGet a "geo_coordinates") "longitude" = .ok true) := by
  unfold hasGeoE
  cases hk : jHasKey a "geo_coordinates" with
  | false => simp
  | true =>
    rw [if_neg (by simp)]
    cases hl : pyContains (jGet a "geo_coordinates") "latitude" with
    | error e => simp
    | ok b => cases b <;> simp

/-- `has_geo` evaluates to `False` exactly when `geo_coordinates` is absent,
or its latitude test fails, or its latitude test passes and its longitude
test fails. -/
theorem hasGeoE_ok_false_iff (a : JValue) :
    hasGeoE a = .ok false ↔
      (jHasKey a "geo_coordinates" = false ∨
       pyContains (jGet a "geo_coordinates") "latitude" = .ok false ∨
       (pyContains (jGet a "geo_coordinates") "latitude" = .ok true ∧
        pyContains (jGet a "geo_coordinates") "longitude" = .ok false)) := by
  unfold hasGeoE
  cases hk : jHasKey a "geo_coordinates" with
  | false => simp
  | true =>
    rw [if_neg (by simp)]
    cases hl : pyContains (jGet a "geo_coordinates") "latitude" with
    | error e => simp
    | ok b => cases b <;> simp

/-- Claim C2 counterexample: an address mapping whose `geo_coordinates` entry
is the plain string `latitude-longitude` is accepted by `validate_address`
(Python `in` is a substring test on strings), although the entry contains no
latitude or longitude keys and the city/country/postal_code triple is absent —
so the claimed characterisation is false at this input. -/
theorem claim_C2_counterexample :
    validate_address
      (JValue.obj [("geo_coordinates", JValue.str "latitude-longitude")]) = .ok true ∧
    jHasKey (jGet (JValue.obj [("geo_coordinates", JValue.str "latitude-longitude")])
      "geo_coordinates") "latitude" = false ∧
    jHasKey (JValue.obj [("geo_coordinates", JValue.str "latitude-longitude")])
      "city" = false :=
  ⟨rfl, rfl, rfl⟩

/-- Claim C2 (amended): `validate_address` succeeds exactly when either the
`geo_coordinates` entry is present and passes both Python membership tests
(key lookup on a mapping, substring on a string, element equality on a list),
or the city/country/postal_code triple is fully present while the
geo-membership test evaluates to `False` without raising (absent key, or a
failing membership test); when `geo_coordinates` holds a value that supports
no membership test, validation raises a TypeError instead of succeeding. -/
theorem claim_C2_address_validation :
    ∀ a : JValue, validate_address a = .ok true ↔
      ((jHasKey a "geo_coordinates" = true ∧
        pyContains (jGet a "geo_coordinates") "latitude" = .ok true ∧
        pyContains (jGet a "geo_coordinates") "longitude" = .ok true) ∨
       ((jHasKey a "city" = true ∧ jHasKey a "country" = true ∧
         jHasKey a "postal_code" = true) ∧
        (jHasKey a "geo_coordinates" = false ∨
         pyContains (jGet a "geo_coordinates") "latitude" = .ok false ∨
         (pyContains (jGet a "geo_coordinates") "latitude" = .ok true ∧
          pyContains (jGet a "geo_coordinates") "longitude" = .ok false)))) := by
  intro a
  unfold validate_address
  cases hh : hasGeoE a with
  | error e =>
    constructor
    · intro hc; simp at hc
    · rintro (hgeo | ⟨hf, hcase⟩)
      · rw [(hasGeoE_ok_true_iff a).mpr hgeo] at hh; simp at hh
      · rw [(hasGeoE_ok_false_iff a).mpr hcase] at hh; simp at hh
  | ok hg =>
    dsimp only
    cases hg with
    | true =>
      rw [if_neg (by simp)]
      simp only [true_iff]
      exact Or.inl ((hasGeoE_ok_true_iff a).mp hh)
    | false =>
      cases hf : (jHasKey a "city" && jHasKey a "country" && jHasKey a "postal_code") with
      | true =>
        rw [if_neg (by simp [hf])]
        simp only [true_iff]
        refine Or.inr ⟨?_, (hasGeoE_ok_false_iff a).mp hh⟩
        simp only [Bool.and_eq_true] at hf
        exact ⟨hf.1.1, hf.1.2, hf.2⟩
      | false =>
        rw [if_pos (by simp [hf])]
        constructor
        · intro hc; simp at hc
        · rintro (hgeo | ⟨⟨h1, h2, h3⟩, _⟩)
          · rw [(hasGeoE_ok_true_iff a).mpr hgeo] at hh; simp at hh
          · rw [h1, h2, h3] at hf; simp at hf

/-- `pyContains` fails only with its TypeError message. -/
theorem pyContains_error (v : JValue) (k : String) (e : String)
    (h : pyContains v k = .error e) : e = "TypeError: argument is not iterable" := by
  unfold pyContains at h
  cases v <;> simp_all

/-- `jltZero` fails only with its TypeError message. -/
theorem jltZero_error (v : JValue) (e : String)
    (h : jltZero v = .error e) : e = "TypeError: value is not comparable with int" := by
  unfold jltZero at h
  cases v <;> simp_all

/-- `jElemsE` succeeds only on lists. -/
theorem jElemsE_ok (v : JValue) (xs : List JValue)
    (h : jElemsE v = .ok xs) : v = .arr xs := by
  cases v <;> simp_all [jElemsE]

/-- `jElemsE` fails only with its TypeError message. -/
theorem jElemsE_error (v : JValue) (e : String)
    (h : jElemsE v = .error e) : e = "TypeError: value cannot be iterated as a list of mappings" := by
  cases v <;> simp_all [jElemsE]

/-- `has_geo` evaluation fails only with the membership TypeError message. -/
theorem hasGeoE_error (a : JValue) (e : String)
    (h : hasGeoE a = .error e) : e = "TypeError: argument is not iterable" := by
  unfold hasGeoE at h
  split at h
  · simp at h
  · cases hl : pyContains (jGet a "geo_coordinates") "latitude" with
    | error e2 =>
      rw [hl] at h
      simp at h
      rw [← h]
      exact pyContains_error _ _ _ hl
    | ok b =>
      rw [hl] at h
      cases b with
      | false => simp at h
      | true => exact pyContains_error _ _ _ h

/-- `validate_address` never raises the provision-location message. -/
theorem validate_address_ne_prov (a : JValue) :
    validate_address a ≠ .error provisionMsg := by
  intro h
  unfold validate_address at h
  cases hh : hasGeoE a with
  | error e =>
    rw [hh] at h
    simp at h
    have h3 := hasGeoE_error a e hh
    rw [h] at h3
    exact absurd h3 (by decide)
  | ok hg =>
    rw [hh] at h
    dsimp only at h
    split at h
    · injection h with h2; exact absurd h2 (by decide)
    · simp at h

/-- `validate_date_time` never raises the provision-location message. -/
theorem validate_date_time_ne_prov (s : String) :
    validate_date_time s ≠ .error provisionMsg := by
  intro h
  unfold validate_date_time at h
  split at h
  · simp at h
  · injection h with h2; exact absurd h2 (by decide)

/-- A single loading point never fails with the provision-location message. -/
theorem validateLoadingPoint_ne_prov (p : JValue) :
    validateLoadingPoint p ≠ .error provisionMsg := by
  intro h
  unfold validateLoadingPoint at h
  split at h
  · injection h with h2; exact absurd h2 (by decide)
  · split at h
    · injection h with h2; exact invalid_lpt_ne_provision _ h2
    · split at h
      · injection h with h2; exact absurd h2 (by decide)
      · cases hz : jltZero (jGet p "sequence_number") with
        | error e =>
          rw [hz] at h
          simp at h
          have h3 := jltZero_error _ _ hz
          rw [h] at h3
          exact absurd h3 (by decide)
        | ok neg =>
          rw [hz] at h
          dsimp only at h
          split at h
          · injection h with h2; exact absurd h2 (by decide)
          · split at h
            · injection h with h2; exact absurd h2 (by decide)
            · exact validate_address_ne_prov _ h

/-- The loading-point loop never fails with the provision-location message. -/
theorem validatePoints_ne_prov (pts : List JValue) :
    validatePoints pts ≠ .error provisionMsg := by
  induction pts with
  | nil => intro h; simp [validatePoints] at h
  | cons p rest ih =>
    intro h
    unfold validatePoints at h
    cases hp : validateLoadingPoint p with
    | error e =>
      rw [hp] at h
      simp at h
      rw [h] at hp
      exact validateLoadingPoint_ne_prov p hp
    | ok b =>
      rw [hp] at h
      exact ih h

/-- The ISO-code argument dispatch never raises the provision-location
message, provided the ISO-code validator never does. -/
theorem isoArgCheck_ne_prov (isoCheck : String → Except String Bool)
    (hiso : ∀ s, isoCheck s ≠ .error provisionMsg) (v : JValue) :
    isoArgCheck isoCheck v ≠ .error provisionMsg := by
  cases v
  case str s => exact hiso s
  all_goals
    (simp only [isoArgCheck];
     split <;> (intro h; injection h with h2; exact absurd h2 (by decide)))

/-- The datetime argument dispatch never raises the provision-location
message. -/
theorem dtArgCheck_ne_prov (v : JValue) :
    dtArgCheck v ≠ .error provisionMsg := by
  cases v
  case str s => exact validate_date_time_ne_prov s
  all_goals
    (simp only [dtArgCheck];
     intro h; injection h with h2; exact absurd h2 (by decide))

/-- A single quotation container never fails with the provision-location
message, provided the ISO-code validator never does. -/
theorem validateQuotationContainer_ne_prov (isoCheck : String → Except String Bool)
    (hiso : ∀ s, isoCheck s ≠ .error provisionMsg) (c : JValue) :
    validateQuotationContainer isoCheck c ≠ .error provisionMsg := by
  intro h
  unfold validateQuotationContainer at h
  split at h
  · injection h with h2; exact absurd h2 (by decide)
  · cases hz : jltZero (jGet c "sequence_number") with
    | error e =>
      rw [hz] at h
      simp at h
      have h3 := jltZero_error _ _ hz
      rw [h] at h3
      exact absurd h3 (by decide)
    | ok neg =>
      rw [hz] at h
      dsimp only at h
      split at h
      · injection h with h2; exact absurd h2 (by decide)
      · split at h
        · injection h with h2; exact absurd h2 (by decide)
        · cases hi : isoArgCheck isoCheck (jGet c "type_code") with
          | error e =>
            rw [hi] at h
            simp at h
            rw [h] at hi
            exact isoArgCheck_ne_prov isoCheck hiso _ hi
          | ok b =>
            rw [hi] at h
            dsimp only at h
            split at h
            · injection h with h2; exact absurd h2 (by decide)
            · exact dtArgCheck_ne_prov _ h

/-- The quotation container loop never fails with the provision-location
message, provided the ISO-code validator never does. -/
theorem validateQuotationContainers_ne_prov (isoCheck : String → Except String Bool)
    (hiso : ∀ s, isoCheck s ≠ .error provisionMsg) (cs : List JValue) :
    validateQuotationContainers isoCheck cs ≠ .error provisionMsg := by
  induction cs with
  | nil => intro h; simp [validateQuotationContainers] at h
  | cons c rest ih =>
    intro h
    unfold validateQuotationContainers at h
    cases hc : validateQuotationContainer isoCheck c with
    | error e =>
      rw [hc] at h
      simp at h
      rw [h] at hc
      exact validateQuotationContainer_ne_prov isoCheck hiso c hc
    | ok b =>
      rw [hc] at h
      exact ih h

/-- Neither ISO-code validator ever raises the provision-location message. -/
theorem iso_validators_ne_prov :
    (∀ s, validate_iso_code s ≠ .error provisionMsg) ∧
    (∀ s, validate_iso_code_client s ≠ .error provisionMsg) := by
  constructor
  · intro s h
    unfold validate_iso_code at h
    split at h
    · injection h with h2; exact absurd h2 (by decide)
    · simp at h
  · intro s h
    unfold validate_iso_code_client at h
    split at h
    · injection h with h2; exact absurd h2 (by decide)
    · split at h
      · injection h with h2; exact absurd h2 (by decide)
      · simp at h

/-- Claim C1: for either ISO-code variant (any ISO validator that never emits
the provision message, as both variants do), quotation validation (i) fails
with the at-least-one-loading-point error on an empty loading-point list,
(ii) fails whenever two or more loading points set `provision_location`
truthy, and (iii) raises the provision-location error only when at least two
loading points set it, so documents with zero or one provision location never
fail that check. -/
theorem claim_C1_route_validation :
    ∀ isoCheck : String → Except String Bool,
      (∀ s, isoCheck s ≠ .error provisionMsg) →
      ((∀ d : JValue, jHasKey d "route" = true →
        jGet (jGet d "route") "route_loading_points" = JValue.arr [] →
        validateQuotationCore isoCheck d =
          .error "Route must contain at least one loading point") ∧
      (∀ (d : JValue) (pts : List JValue), jHasKey d "route" = true →
        jGet (jGet d "route") "route_loading_points" = JValue.arr pts →
        2 ≤ countProvision pts →
        (validateQuotationCore isoCheck d).isOk = false) ∧
      (∀ d : JValue, validateQuotationCore isoCheck d = .error provisionMsg →
        ∃ pts, jGet (jGet d "route") "route_loading_points" = JValue.arr pts ∧
          2 ≤ countProvision pts)) := by
  intro isoCheck hiso
  refine ⟨?_, ?_, ?_⟩
  · intro d hr hp
    unfold validateQuotationCore
    rw [if_neg (by simp [hr]), if_pos (by rw [hp]; simp [truthy])]
  · intro d pts hr hp hc
    have hptsne : pts ≠ [] := by
      intro he
      subst he
      simp [countProvision] at hc
    unfold validateQuotationCore
    rw [if_neg (by simp [hr]),
        if_neg (by
          rw [hp]
          simp [truthy, jGet_hasKey _ _ (by rw [hp]; intro hcon; cases hcon),
                List.isEmpty_iff, hptsne]),
        hp]
    dsimp only [jElemsE]
    cases hv : validatePoints pts with
    | error e => simp [isOk_error]
    | ok b =>
      dsimp only
      rw [if_pos (by omega)]
      rfl
  · intro d h
    unfold validateQuotationCore at h
    split at h
    · injection h with h2; exact absurd h2 (by decide)
    · split at h
      · injection h with h2; exact absurd h2 (by decide)
      · cases he : jElemsE (jGet (jGet d "route") "route_loading_points") with
        | error e =>
          rw [he] at h
          simp at h
          have h3 := jElemsE_error _ _ he
          rw [h] at h3
          exact absurd h3 (by decide)
        | ok pts =>
          have hv := jElemsE_ok _ _ he
          rw [he] at h
          dsimp only at h
          cases hvp : validatePoints pts with
          | error e =>
            rw [hvp] at h
            simp at h
            rw [h] at hvp
            exact absurd hvp (validatePoints_ne_prov pts)
          | ok b =>
            rw [hvp] at h
            dsimp only at h
            split at h
            next hcount => exact ⟨pts, hv, by omega⟩
            next hcount =>
              split at h
              · injection h with h2; exact absurd h2 (by decide)
              · cases hce : jElemsE (jGet d "containers") with
                | error e =>
                  rw [hce] at h
                  simp at h
                  have h3 := jElemsE_error _ _ hce
                  rw [h] at h3
                  exact absurd h3 (by decide)
                | ok cs =>
                  rw [hce] at h
                  dsimp only at h
                  exact absurd h (validateQuotationContainers_ne_prov isoCheck hiso cs)

/-- Witness for C1 with the loose ISO validator: an empty loading-point list
is rejected with the at-least-one message, and a route with two provision
locations fails validation. -/
theorem claim_C1_route_validation_witness :
    validateQuotationCore validate_iso_code
      (JValue.obj [("route", JValue.obj [("route_loading_points", JValue.arr [])])]) =
      .error "Route must contain at least one loading point" ∧
    (validateQuotationCore validate_iso_code
      (JValue.obj [("route", JValue.obj [("route_loading_points", JValue.arr
        [JValue.obj [("provision_location", JValue.bool true)],
         JValue.obj [("provision_location", JValue.bool true)]])])])).isOk = false :=
  ⟨(claim_C1_route_validation validate_iso_code iso_validators_ne_prov.1).1 _ rfl rfl,
   (claim_C1_route_validation validate_iso_code iso_validators_ne_prov.1).2.1 _
     [JValue.obj [("provision_location", JValue.bool true)],
      JValue.obj [("provision_location", JValue.bool true)]] rfl rfl (by decide)⟩

/-- Facts about rendered digit characters: their value, and that they are not
`Z`, `+` or `-`. -/
theorem digitChar_facts : ∀ r : Nat, r < 10 →
    pyDigit (Char.ofNat (48 + r)) = some r ∧
    Char.ofNat (48 + r) ≠ 'Z' ∧ Char.ofNat (48 + r) ≠ '+' ∧
    Char.ofNat (48 + r) ≠ '-' := by decide

/-- Characters of a two-digit rendering are digits, not `Z`/`+`/`-`. -/
theorem pad2_chars (n : Nat) (h : n < 100) :
    ∀ c ∈ pad2 n, c ≠ 'Z' ∧ c ≠ '+' ∧ c ≠ '-' := by
  intro c hc
  have h1 : n / 10 < 10 := by omega
  have h2 : n % 10 < 10 := by omega
  simp [pad2] at hc
  rcases hc with hc | hc <;> subst hc
  · exact (digitChar_facts _ h1).2
  · exact (digitChar_facts _ h2).2

/-- Parsing two digits off a two-digit rendering recovers the value. -/
theorem parse2_pad2 (n : Nat) (rest : List Char) (h : n < 100) :
    parse2 (pad2 n ++ rest) = some (n, rest) := by
  have h1 : n / 10 < 10 := by omega
  have h2 : n % 10 < 10 := by omega
  simp [pad2, parse2, (digitChar_facts _ h1).1, (digitChar_facts _ h2).1]
  omega

/-- Parsing four digits off a four-digit rendering recovers the value. -/
theorem parse4_pad4 (n : Nat) (rest : List Char) (h : n < 10000) :
    parse4 (pad4 n ++ rest) = some (n, rest) := by
  have hh : n / 100 < 100 := by omega
  have hl : n % 100 < 100 := by omega
  simp [parse4, pad4, List.append_assoc, parse2_pad2 _ _ hh, parse2_pad2 _ _ hl]
  omega

/-- The date parser recovers the components of a rendered date. -/
theorem parseIsoDate_render (y mo d : Nat) (rest : List Char)
    (hy : y < 10000) (hmo : mo < 100) (hd : d < 100) :
    parseIsoDate (pad4 y ++ '-' :: (pad2 mo ++ '-' :: (pad2 d ++ rest))) =
      some (y, mo, d, rest) := by
  simp [parseIsoDate, parse4_pad4 _ _ hy, parse2_pad2 _ _ hmo, parse2_pad2 _ _ hd]

/-- The sign search passes over sign-free characters. -/
theorem splitAtSign_app (l r : List Char) (hl : ∀ c ∈ l, c ≠ '+' ∧ c ≠ '-') :
    splitAtSign (l ++ '+' :: r) = (l, '+' :: r) := by
  induction l with
  | nil => simp [splitAtSign]
  | cons c cs ih =>
    have hc := hl c (by simp)
    simp only [List.cons_append, splitAtSign]
    rw [if_neg (by simp [hc.1, hc.2])]
    rw [show cs.append ('+' :: r) = cs ++ '+' :: r from rfl,
        ih (fun c2 hm => hl c2 (List.mem_cons_of_mem _ hm))]

/-- `replaceZchars` distributes over append. -/
theorem replaceZchars_app (a b : List Char) :
    replaceZchars (a ++ b) = replaceZchars a ++ replaceZchars b := by
  induction a with
  | nil => simp [replaceZchars]
  | cons c cs ih => by_cases hc : c = 'Z' <;> simp [replaceZchars, hc, ih]

/-- `replaceZchars` leaves Z-free lists unchanged. -/
theorem replaceZchars_noZ (l : List Char) (h : ∀ c ∈ l, c ≠ 'Z') :
    replaceZchars l = l := by
  induction l with
  | nil => rfl
  | cons c cs ih =>
    simp [replaceZchars, h c (by simp)]
    exact ih (fun c2 hm => h c2 (by simp [hm]))

/-- `replaceZchars` passes over a two-digit rendering. -/
theorem replaceZchars_pad2 (n : Nat) (h : n < 100) (l : List Char) :
    replaceZchars (pad2 n ++ l) = pad2 n ++ replaceZchars l := by
  rw [replaceZchars_app, replaceZchars_noZ (pad2 n) (fun c hc => (pad2_chars n h c hc).1)]

/-- `replaceZchars` passes over a four-digit rendering. -/
theorem replaceZchars_pad4 (n : Nat) (h : n < 10000) (l : List Char) :
    replaceZchars (pad4 n ++ l) = pad4 n ++ replaceZchars l := by
  unfold pad4
  rw [List.append_assoc, replaceZchars_pad2 _ (by omega),
      replaceZchars_pad2 _ (by omega), ← List.append_assoc]

/-- `replaceZchars` passes over a non-`Z` head character. -/
theorem replaceZchars_cons_ne (c : Char) (hc : c ≠ 'Z') (l : List Char) :
    replaceZchars (c :: l) = c :: replaceZchars l := by
  simp [replaceZchars, hc]

/-- The time parser recovers the components of a rendered `HH:MM:SS`. -/
theorem parseHMS_render (h mi se : Nat) (hh : h < 100) (hmi : mi < 100)
    (hse : se < 100) :
    parseHMS (pad2 h ++ ':' :: (pad2 mi ++ ':' :: pad2 se)) = some (h, mi, se, 0) := by
  have e3 : parse2 (pad2 se) = some (se, []) := by
    have := parse2_pad2 se [] hse
    simpa using this
  simp [parseHMS, parse2_pad2 _ _ hh, parse2_pad2 _ _ hmi, e3]

/-- The full time parser recovers the components of `HH:MM:SS+00:00`. -/
theorem parseIsoTime_render (h mi se : Nat) (hh : h < 100) (hmi : mi < 100)
    (hse : se < 100) :
    parseIsoTime ((pad2 h ++ ':' :: (pad2 mi ++ ':' :: pad2 se)) ++ '+' :: "00:00".data) =
      some (h, mi, se, 0, some 0) := by
  have hts : ∀ c ∈ pad2 h ++ ':' :: (pad2 mi ++ ':' :: pad2 se), c ≠ '+' ∧ c ≠ '-' := by
    intro c hc
    rcases List.mem_append.mp hc with hc | hc
    · exact ⟨(pad2_chars _ hh c hc).2.1, (pad2_chars _ hh c hc).2.2⟩
    · rcases List.mem_cons.mp hc with hc | hc
      · subst hc; exact ⟨by decide, by decide⟩
      · rcases List.mem_append.mp hc with hc | hc
        · exact ⟨(pad2_chars _ hmi c hc).2.1, (pad2_chars _ hmi c hc).2.2⟩
        · rcases List.mem_cons.mp hc with hc | hc
          · subst hc; exact ⟨by decide, by decide⟩
          · exact ⟨(pad2_chars _ hse c hc).2.1, (pad2_chars _ hse c hc).2.2⟩
  have htz : parseHMS "00:00".data = some (0, 0, 0, 0) := rfl
  unfold parseIsoTime
  rw [splitAtSign_app _ _ hts]
  simp [parseHMS_render h mi se hh hmi hse, htz]

/-- Every month has at most 31 days. -/
theorem daysInMonth_le31 (y mo : Nat) : daysInMonth y mo ≤ 31 := by
  unfold daysInMonth
  split
  · split <;> omega
  · split <;> omega

/-- Claim C7 (amended): `validate_datetime` accepts every RFC 3339 timestamp
of the canonical form `YYYY-MM-DDTHH:MM:SSZ` (uppercase `T` and `Z`, no
fractional seconds, seconds at most 59) with in-range calendar components —
but its acceptance is not an iff against RFC 3339: it is the acceptance of
Python `datetime.fromisoformat` after `Z`-replacement, which also accepts
non-RFC-3339 strings such as date-only ISO dates; rejected strings fail with
the format-hint message. -/
theorem claim_C7_datetime_accepts_canonical :
    ∀ y mo d h mi se : Nat, 1 ≤ y → y ≤ 9999 → 1 ≤ mo → mo ≤ 12 →
      1 ≤ d → d ≤ daysInMonth y mo → h ≤ 23 → mi ≤ 59 → se ≤ 59 →
      validate_date_time (renderTsZ y mo d h mi se) = .ok true := by
  intro y mo d h mi se hy1 hy2 hm1 hm2 hd1 hd2 hh hmi hse
  have hy : y < 10000 := by omega
  have hmo : mo < 100 := by omega
  have hdm : d < 100 := by
    have := daysInMonth_le31 y mo
    omega
  have hhb : h < 100 := by omega
  have hmib : mi < 100 := by omega
  have hseb : se < 100 := by omega
  have hdata : (replaceZ (renderTsZ y mo d h mi se)).data =
      pad4 y ++ '-' :: (pad2 mo ++ '-' :: (pad2 d ++ 'T' ::
        (pad2 h ++ ':' :: (pad2 mi ++ ':' :: (pad2 se ++ '+' :: "00:00".data))))) := by
    show replaceZchars (renderTsZ y mo d h mi se).data = _
    show replaceZchars (pad4 y ++ '-' :: (pad2 mo ++ '-' :: (pad2 d ++ 'T' ::
      (pad2 h ++ ':' :: (pad2 mi ++ ':' :: (pad2 se ++ ['Z'])))))) = _
    rw [replaceZchars_pad4 y hy, replaceZchars_cons_ne '-' (by decide),
        replaceZchars_pad2 mo hmo, replaceZchars_cons_ne '-' (by decide),
        replaceZchars_pad2 d hdm, replaceZchars_cons_ne 'T' (by decide),
        replaceZchars_pad2 h hhb, replaceZchars_cons_ne ':' (by decide),
        replaceZchars_pad2 mi hmib, replaceZchars_cons_ne ':' (by decide),
        replaceZchars_pad2 se hseb,
        show replaceZchars ['Z'] = '+' :: "00:00".data from rfl]
  have hassoc : pad2 h ++ ':' :: (pad2 mi ++ ':' :: (pad2 se ++ '+' :: "00:00".data)) =
      (pad2 h ++ ':' :: (pad2 mi ++ ':' :: pad2 se)) ++ '+' :: "00:00".data := by
    simp [List.append_assoc]
  have hvalid : pyFromisoformatValid (replaceZ (renderTsZ y mo d h mi se)) = true := by
    unfold pyFromisoformatValid
    rw [hdata, parseIsoDate_render y mo d _ hy hmo hdm]
    dsimp only
    rw [hassoc, parseIsoTime_render h mi se hhb hmib hseb]
    dsimp only
    simp only [Bool.and_eq_true, decide_eq_true_eq]
    repeat' apply And.intro
    all_goals first | assumption | omega | decide
  unfold validate_date_time
  rw [if_pos hvalid]

/-- Witness for C7 (amended): the canonical timestamp built from the sample
components is exactly `2021-01-31T12:30:25Z` and is accepted. -/
theorem claim_C7_datetime_witness :
    validate_date_time (renderTsZ 2021 1 31 12 30 25) = .ok true ∧
    renderTsZ 2021 1 31 12 30 25 = "2021-01-31T12:30:25Z" :=
  ⟨claim_C7_datetime_accepts_canonical 2021 1 31 12 30 25 (by decide) (by decide)
    (by decide) (by decide) (by decide) (by decide) (by decide) (by decide) (by decide),
   rfl⟩

/-- Claim C7 counterexample: the date-only string `2021-01-31` is not an
RFC 3339 timestamp, yet `validate_datetime` accepts it (Python
`datetime.fromisoformat` accepts date-only ISO strings); for comparison, the
RFC 3339 grammar does accept the full timestamp form. -/
theorem claim_C7_counterexample :
    validate_date_time "2021-01-31" = .ok true ∧
    rfc3339_spec "2021-01-31" = false ∧
    rfc3339_spec "2021-01-31T12:30:25Z" = true :=
  ⟨rfl, rfl, rfl⟩
